import Mathlib

/-!
# Verification of the Contradiction & Trend Detection Engine

Shallow embedding of the core analysis code of the `dje-analise-v2`
repository (files `src/analyzers/contradiction_detector.py`,
`src/analyzers/change_monitor.py`, `src/models/contradiction_models.py`,
`src/models/change_monitor_models.py`) together with proofs and
refutations of the specified properties.

Modelling conventions:
* Python floats are modelled as `ℚ` (only arithmetic and comparisons on
  exact decimal constants occur in the embedded code); the single
  square root (`variance ** 0.5`) is modelled in `ℝ` via `Real.sqrt`.
* Wall-clock fields (`datetime.now()`, `created_at`, `detected_at`,
  `date`, `period_start`, `period_end`) carry no program logic and are
  omitted from the embedded records.
* External collaborators (embedding service, ChromaDB retrieval, the
  LLM adjudicator, fresh UUIDs) are passed in as explicit oracle
  parameters.
* Fallible Python operations (dict subscripting, attribute access)
  return `Except String _`, with the error message naming the Python
  exception.
-/

namespace DJE

/-! ## A matcher for the regular expressions used by the decision taggers

The decision patterns of `contradiction_detector.py` (lines 41-48) and
`change_monitor.py` (lines 152-164) use only: literal characters,
character classes (`[oa]`, `[ãa]`, `[- ]`), `\w+`, alternation, and
`\b` word boundaries.  Every alternative starts and ends with a word
character, so a `\b` holds exactly when the neighbouring text character
(if any) is not a word character.  `re.search` semantics: a match may
start at any position. -/

/-- Python `\w` (`re.UNICODE` word character), restricted to ASCII
alphanumerics, underscore and the accented letters occurring in
Portuguese legal text. -/
def isWordChar (c : Char) : Bool :=
  c.isAlphanum || c == '_' ||
    ['ã', 'á', 'à', 'â', 'é', 'ê', 'í', 'ó', 'ô', 'õ', 'ú', 'ü', 'ç'].contains c

/-- One atom of a regular-expression alternative. -/
inductive Atom where
  | lit (c : Char)
  | cls (cs : List Char)
  | wplus
  deriving Repr, DecidableEq

/-- Match a sequence of atoms against a prefix of `s`, requiring a word
boundary right after the matched prefix (all embedded patterns end in a
word character, so the trailing `\b` holds iff the rest of the text does
not start with a word character). -/
def matchAtoms (as : List Atom) (s : List Char) : Bool :=
  match s with
  | [] =>
    match as with
    | [] => true
    | _ :: _ => false
  | c :: s' =>
    match as with
    | [] => !isWordChar c
    | Atom.lit a :: rest => a == c && matchAtoms rest s'
    | Atom.cls cs :: rest => cs.contains c && matchAtoms rest s'
    | Atom.wplus :: rest =>
        isWordChar c && (matchAtoms rest s' || matchAtoms (Atom.wplus :: rest) s')

/-- `re.search` over the text: try every start position; the leading
`\b` holds iff the previous character (`prevWord`) is not a word
character (all embedded alternatives start with a word character). -/
def searchFrom (alts : List (List Atom)) (prevWord : Bool) : List Char → Bool
  | [] => !prevWord && alts.any fun a => matchAtoms a []
  | c :: rest =>
      (!prevWord && alts.any fun a => matchAtoms a (c :: rest)) ||
        searchFrom alts (isWordChar c) rest

/-- A compiled pattern: the list of its `\b`-delimited alternatives. -/
abbrev Pattern := List (List Atom)

/-- Whether `re.search(pattern, text)` finds a match. -/
def reSearch (p : Pattern) (text : List Char) : Bool :=
  searchFrom p false text

/-- Atoms of a literal string. -/
def strAtoms (s : String) : List Atom :=
  s.data.map Atom.lit

/-! ### The six decision patterns of `ContradictionDetector.decision_patterns` -/

/-- `r'\b(provid[oa]|deu-se provimento|dar provimento)\b'` -/
def pat_provido : Pattern :=
  [strAtoms "provid" ++ [Atom.cls ['o', 'a']],
   strAtoms "deu-se provimento",
   strAtoms "dar provimento"]

/-- `r'\b(n[ãa]o[- ]provid[oa]|negou-se provimento|negar provimento|desprovid[oa])\b'` -/
def pat_nao_provido : Pattern :=
  [[Atom.lit 'n', Atom.cls ['ã', 'a'], Atom.lit 'o', Atom.cls ['-', ' ']] ++
     strAtoms "provid" ++ [Atom.cls ['o', 'a']],
   strAtoms "negou-se provimento",
   strAtoms "negar provimento",
   strAtoms "desprovid" ++ [Atom.cls ['o', 'a']]]

/-- `r'\b(procedente|acolh\w+)\b'` -/
def pat_procedente : Pattern :=
  [strAtoms "procedente", strAtoms "acolh" ++ [Atom.wplus]]

/-- `r'\b(improcedente|rejeit\w+)\b'` -/
def pat_improcedente : Pattern :=
  [strAtoms "improcedente", strAtoms "rejeit" ++ [Atom.wplus]]

/-- `r'\b(deferid[oa]|defere-se)\b'` -/
def pat_deferido : Pattern :=
  [strAtoms "deferid" ++ [Atom.cls ['o', 'a']], strAtoms "defere-se"]

/-- `r'\b(indeferid[oa]|indefere-se)\b'` -/
def pat_indeferido : Pattern :=
  [strAtoms "indeferid" ++ [Atom.cls ['o', 'a']], strAtoms "indefere-se"]

/-- `ContradictionDetector.decision_patterns` (contradiction_detector.py
lines 41-48): a dict, iterated in insertion order. -/
def decision_patterns : List (String × Pattern) :=
  [("provido", pat_provido),
   ("nao_provido", pat_nao_provido),
   ("procedente", pat_procedente),
   ("improcedente", pat_improcedente),
   ("deferido", pat_deferido),
   ("indeferido", pat_indeferido)]

/-- The `for decision_type, pattern in self.decision_patterns.items()`
loop of `_detect_decision_type`: return the first label whose pattern
matches, else fall through to `None`. -/
def detectDecisionTypeAux : List (String × Pattern) → List Char → Option String
  | [], _ => none
  | (label, pat) :: rest, t =>
      if reSearch pat t then some label else detectDecisionTypeAux rest t

/-- Python `text.lower()`, as a character list (exact on ASCII; Python
additionally lowercases non-ASCII uppercase letters, which does not
affect the lowercase Portuguese patterns below). -/
def pyLower (text : String) : List Char :=
  text.data.map Char.toLower

/-- `ContradictionDetector._detect_decision_type` (lines 163-171).
The additional `re.IGNORECASE` flag is vacuous on already-lowercased
ASCII text. -/
def detect_decision_type (text : String) : Option String :=
  detectDecisionTypeAux decision_patterns (pyLower text)

/-! ### The favorable/unfavorable pattern groups of `ChangeMonitor._detect_decision` -/

/-- `favorable_patterns` (change_monitor.py lines 152-157). -/
def favorable_patterns : List Pattern :=
  [[strAtoms "provid" ++ [Atom.cls ['o', 'a']]],
   [strAtoms "deferid" ++ [Atom.cls ['o', 'a']]],
   [strAtoms "procedente"],
   [strAtoms "acolh" ++ [Atom.wplus]]]

/-- `unfavorable_patterns` (change_monitor.py lines 159-164). -/
def unfavorable_patterns : List Pattern :=
  [[[Atom.lit 'n', Atom.cls ['ã', 'a'], Atom.lit 'o', Atom.cls ['-', ' ']] ++
      strAtoms "provid" ++ [Atom.cls ['o', 'a']]],
   [strAtoms "indeferid" ++ [Atom.cls ['o', 'a']]],
   [strAtoms "improcedente"],
   [strAtoms "rejeit" ++ [Atom.wplus]]]

/-- `for pattern in patterns: if re.search(pattern, text_lower): return …` -/
def anyPatternMatches : List Pattern → List Char → Bool
  | [], _ => false
  | p :: rest, t => reSearch p t || anyPatternMatches rest t

/-- `ChangeMonitor._detect_decision` (lines 148-174): favorable pattern
group first, then unfavorable, else `"neutro"`. -/
def detect_decision (text : String) : String :=
  let t := pyLower text
  if anyPatternMatches favorable_patterns t then "favorável"
  else if anyPatternMatches unfavorable_patterns t then "desfavorável"
  else "neutro"

/-! ### Spec-side characterisation of the taggers (from §4.1 of the spec) -/

/-- Modelled from the spec: "applies an ordered list of pattern groups
and returns the first match" — the label of the first pattern in the
ordered table that matches. -/
def firstMatchLabel (pats : List (String × Pattern)) (t : List Char) : Option String :=
  (pats.find? fun lp => reSearch lp.2 t).map Prod.fst

/-! ## Data model of `contradiction_models.py`

Wall-clock fields (`detected_at`, `created_at`, `generated_at`) are
omitted; Python `Literal[...]` string annotations are kept as `String`
(Python does not enforce them at runtime). -/

/-- `JurisprudenceCase` (contradiction_models.py lines 9-21). -/
structure JurisprudenceCase where
  id : String
  title : String
  text : String
  tribunal : String
  tribunal_name : String
  number : Option String := none
  year : Option Int := none
  decision_type : Option String := none
  tema : Option String := none
  metadata : List (String × String) := []
  deriving Repr, DecidableEq

/-- `SimilarCase` (lines 24-30). -/
structure SimilarCase where
  case1 : JurisprudenceCase
  case2 : JurisprudenceCase
  similarity_score : ℚ
  semantic_distance : ℚ
  deriving Repr, DecidableEq

/-- `Contradiction` (lines 33-50). -/
structure Contradiction where
  id : String
  case1 : JurisprudenceCase
  case2 : JurisprudenceCase
  similarity_score : ℚ
  contradiction_type : String
  contradiction_severity : String
  explanation : String
  legal_impact : String
  recommended_action : String
  deriving Repr, DecidableEq

/-- `ContradictionCluster` (lines 53-61). -/
structure ContradictionCluster where
  theme : String
  contradictions : List Contradiction
  affected_tribunals : List String
  total_cases : Nat
  severity_distribution : List (String × Nat)
  summary : String
  deriving Repr, DecidableEq

/-- The per-tribunal statistics dict built by
`_calculate_tribunal_statistics` (lines 421-426). -/
structure TribunalStats where
  total_cases : Nat := 0
  contradictions_involved : Nat := 0
  contradiction_rate : ℚ := 0
  severity_distribution : List (String × Nat) := []
  deriving Repr, DecidableEq

/-- `ContradictionReport` (lines 64-74), minus `generated_at`. -/
structure ContradictionReport where
  query : String
  total_cases_analyzed : Nat
  contradictions_found : Nat
  clusters : List ContradictionCluster
  tribunal_comparison : List (String × TribunalStats)
  highlights : List String
  recommendations : List String
  deriving Repr, DecidableEq

/-- `ContradictionAlert` (lines 110-118), minus `created_at`. -/
structure ContradictionAlert where
  contradiction : Contradiction
  priority : String
  message : String
  actionable : Bool
  tribunals_involved : List String
  deriving Repr, DecidableEq

/-! ## `ContradictionDetector` (contradiction_detector.py)

The LLM adjudication call of `_ai_contradiction_analysis` is modelled
by an oracle value: either the whole `try` block raised (API failure or
`json.loads` failure), or it produced a parsed JSON object, modelled as
a record of optional fields (any key may be absent). -/

/-- The parsed JSON object returned by the adjudication call; each
expected key may be missing. -/
structure AnalysisDict where
  is_contradiction : Option Bool := none
  type : Option String := none
  severity : Option String := none
  explanation : Option String := none
  legal_impact : Option String := none
  recommendation : Option String := none
  deriving Repr, DecidableEq

/-- Outcome of the external adjudication interaction inside the `try`
of `_ai_contradiction_analysis` (lines 327-341): either some step
raised, or `json.loads` returned an object. -/
inductive AIOutcome where
  | raised
  | parsed (d : AnalysisDict)
  deriving Repr, DecidableEq

/-- `ContradictionDetector._ai_contradiction_analysis` (lines 297-352):
on any exception the deterministic fallback dict is returned (lines
345-352); otherwise the parsed result is returned as-is. -/
def ai_contradiction_analysis (outcome : AIOutcome)
    (case1 case2 : JurisprudenceCase) : AnalysisDict :=
  match outcome with
  | .parsed d => d
  | .raised =>
      { is_contradiction := some true
        type := some "decisao_oposta"
        severity := some "média"
        explanation := some ("Decisões opostas detectadas: " ++ case1.tribunal ++
          " vs " ++ case2.tribunal)
        legal_impact := some "Possível divergência jurisprudencial entre tribunais"
        recommendation := some "Verificar qual entendimento é mais recente e fundamentado" }

/-- Python dict subscript `analysis[key]`: `KeyError` when absent. -/
def getKey {α : Type} (v : Option α) (key : String) : Except String α :=
  match v with
  | some x => Except.ok x
  | none => Except.error ("KeyError: " ++ key)

/-- The `opposites` table of `_has_opposite_decisions` (lines 285-289);
each entry is a two-element set, modelled as an unordered pair. -/
def opposites : List (String × String) :=
  [("provido", "nao_provido"),
   ("procedente", "improcedente"),
   ("deferido", "indeferido")]

/-- `{decision1, decision2} == opposite_pair` on two-element sets whose
members differ. -/
def setPairEq (d1 d2 : String) (p : String × String) : Bool :=
  (d1 == p.1 && d2 == p.2) || (d1 == p.2 && d2 == p.1)

/-- `ContradictionDetector._has_opposite_decisions` (lines 280-295).
`if not decision1 or not decision2: return False` — Python treats both
`None` and the empty string as falsy. -/
def has_opposite_decisions (decision1 decision2 : Option String) : Bool :=
  match decision1, decision2 with
  | some d1, some d2 =>
      if d1 == "" || d2 == "" then false
      else opposites.any fun p => setPairEq d1 d2 p
  | _, _ => false

/-- `ContradictionDetector._check_contradiction` (lines 251-278).
`freshId` models `str(uuid.uuid4())`.  The `analysis[...]` subscripts
are evaluated in source order; a missing key raises `KeyError`, which
propagates (there is no enclosing handler). -/
def check_contradiction (freshId : String) (outcome : AIOutcome)
    (pair : SimilarCase) : Except String (Option Contradiction) := do
  if has_opposite_decisions pair.case1.decision_type pair.case2.decision_type then
    let analysis := ai_contradiction_analysis outcome pair.case1 pair.case2
    let isc ← getKey analysis.is_contradiction "is_contradiction"
    if isc then
      let ty ← getKey analysis.type "type"
      let sev ← getKey analysis.severity "severity"
      let expl ← getKey analysis.explanation "explanation"
      let impact ← getKey analysis.legal_impact "legal_impact"
      let reco ← getKey analysis.recommendation "recommendation"
      return some
        { id := freshId
          case1 := pair.case1
          case2 := pair.case2
          similarity_score := pair.similarity_score
          contradiction_type := ty
          contradiction_severity := sev
          explanation := expl
          legal_impact := impact
          recommended_action := reco }
    else
      return none
  else
    return none

/-- The `for pair in similar_pairs` loop of `_analyze_contradictions`
(lines 235-249): each pair is checked in order; an uncaught exception
from `_check_contradiction` aborts the whole loop. -/
def analyze_contradictions (freshIds : SimilarCase → String)
    (orc : SimilarCase → AIOutcome) :
    List SimilarCase → Except String (List Contradiction)
  | [] => Except.ok []
  | p :: rest => do
    let c ← check_contradiction (freshIds p) (orc p) p
    let others ← analyze_contradictions freshIds orc rest
    match c with
    | some c => return c :: others
    | none => return others

/-- The nested pair loop of `_find_similar_pairs` (lines 179-197):
for each `case1`, compare with every later `case2`; skip same-tribunal
pairs; keep pairs whose similarity (computed by the external embedding
service, here the oracle `sim`) reaches the threshold. -/
def pairCandidates (sim : JurisprudenceCase → JurisprudenceCase → ℚ)
    (threshold : ℚ) : List JurisprudenceCase → List SimilarCase
  | [] => []
  | c1 :: rest =>
      (rest.filterMap fun c2 =>
        if c1.tribunal == c2.tribunal then none
        else
          let similarity := sim c1 c2
          if threshold ≤ similarity then
            some { case1 := c1, case2 := c2, similarity_score := similarity,
                   semantic_distance := 1 - similarity }
          else none) ++ pairCandidates sim threshold rest

/-- `ContradictionDetector._find_similar_pairs` (lines 173-202): the
candidate pairs, then `sort(key=similarity_score, reverse=True)` (a
stable descending sort). -/
def find_similar_pairs (sim : JurisprudenceCase → JurisprudenceCase → ℚ)
    (cases : List JurisprudenceCase) (threshold : ℚ) : List SimilarCase :=
  (pairCandidates sim threshold cases).mergeSort
    fun a b => b.similarity_score ≤ a.similarity_score

/-- `contradiction.case1.tema or contradiction.case2.tema or "Tema não
especificado"` — Python `or` skips falsy values (`None` and `""`). -/
def pyOrStr : Option String → String → String
  | some s, d => if s == "" then d else s
  | none, d => d

/-- The theme key used by `_cluster_contradictions` (lines 362-367). -/
def themeOf (c : Contradiction) : String :=
  pyOrStr c.case1.tema (pyOrStr c.case2.tema "Tema não especificado")

/-- Append `c` to the group of `key` in an insertion-ordered assoc
list, creating the group at the end if absent (defaultdict(list)). -/
def insertGroup (key : String) (c : Contradiction) :
    List (String × List Contradiction) → List (String × List Contradiction)
  | [] => [(key, [c])]
  | (k, g) :: rest =>
      if k == key then (k, g ++ [c]) :: rest else (k, g) :: insertGroup key c rest

/-- The `theme_groups` defaultdict of `_cluster_contradictions`. -/
def groupByTheme (contradictions : List Contradiction) :
    List (String × List Contradiction) :=
  contradictions.foldl (fun acc c => insertGroup (themeOf c) c acc) []

/-- Bump the count of `key` in an insertion-ordered counter
(defaultdict(int)). -/
def bumpCount (key : String) : List (String × Nat) → List (String × Nat)
  | [] => [(key, 1)]
  | (k, n) :: rest =>
      if k == key then (k, n + 1) :: rest else (k, n) :: bumpCount key rest

/-- Counter over a list of keys, in encounter order. -/
def countBy (keys : List String) : List (String × Nat) :=
  keys.foldl (fun acc k => bumpCount k acc) []

/-- Python `sorted` over strings (ascending, by code points). -/
def sortedStrings (l : List String) : List String :=
  l.mergeSort fun a b => !decide (b < a)

/-- The `tribunals` set of a contradiction group (`set()` with two
`add`s per item), rendered as Python `sorted(tribunals)`: the deduped,
ascending list of all involved tribunals. -/
def sortedTribunals (group : List Contradiction) : List String :=
  sortedStrings ((group.flatMap fun c => [c.case1.tribunal, c.case2.tribunal]).dedup)

/-- `ContradictionDetector._generate_cluster_summary` (lines 401-413). -/
def generate_cluster_summary (theme : String) (contradictions : List Contradiction) :
    String :=
  let tribunals := sortedTribunals contradictions
  "Tema '" ++ theme ++ "' apresenta " ++ toString contradictions.length ++
    " contradição(ões) envolvendo " ++ toString tribunals.length ++
    " tribunal(is): " ++ String.intercalate ", " tribunals

/-- `ContradictionDetector._cluster_contradictions` (lines 354-399):
group by theme, build a cluster per group, sort clusters by member
count (descending, stable). -/
def cluster_contradictions (contradictions : List Contradiction) :
    List ContradictionCluster :=
  let clusters := (groupByTheme contradictions).map fun tg =>
    { theme := tg.1
      contradictions := tg.2
      affected_tribunals := sortedTribunals tg.2
      total_cases := tg.2.length * 2
      severity_distribution := countBy (tg.2.map fun c => c.contradiction_severity)
      summary := generate_cluster_summary tg.1 tg.2 : ContradictionCluster }
  clusters.mergeSort fun a b => b.contradictions.length ≤ a.contradictions.length

/-- Mutate the entry of `key` in an insertion-ordered assoc list with
defaultdict semantics: a missing entry is created (at the end) from the
default before `f` is applied. -/
def updateAssoc (key : String) (dflt : TribunalStats) (f : TribunalStats → TribunalStats) :
    List (String × TribunalStats) → List (String × TribunalStats)
  | [] => [(key, f dflt)]
  | (k, v) :: rest =>
      if k == key then (k, f v) :: rest else (k, v) :: updateAssoc key dflt f rest

/-- `ContradictionDetector._calculate_tribunal_statistics` (lines
415-447): count cases per tribunal, count contradictions per involved
tribunal (both cases of each contradiction), then compute rates. -/
def calculate_tribunal_statistics (cases : List JurisprudenceCase)
    (contradictions : List Contradiction) : List (String × TribunalStats) :=
  let stats := cases.foldl (fun acc case =>
    updateAssoc case.tribunal {} (fun s => { s with total_cases := s.total_cases + 1 }) acc) []
  let stats := contradictions.foldl (fun acc c =>
    [c.case1, c.case2].foldl (fun acc case =>
      updateAssoc case.tribunal {} (fun s =>
        { s with
          contradictions_involved := s.contradictions_involved + 1
          severity_distribution :=
            bumpCount c.contradiction_severity s.severity_distribution }) acc) acc) stats
  stats.map fun kv =>
    (kv.1,
      if kv.2.total_cases > 0 then
        { kv.2 with contradiction_rate :=
            (kv.2.contradictions_involved : ℚ) / (kv.2.total_cases : ℚ) }
      else kv.2)

/-- Python `max(items, key=value)`: the first entry with the maximal
value (later entries replace only when strictly greater). -/
def maxByVal : List (String × Nat) → Option (String × Nat)
  | [] => none
  | kv :: rest =>
      match maxByVal rest with
      | none => some kv
      | some best => if best.2 > kv.2 then some best else some kv

/-- `ContradictionDetector._generate_highlights` (lines 449-489). -/
def generate_highlights (contradictions : List Contradiction)
    (clusters : List ContradictionCluster) : List String :=
  if contradictions.isEmpty then
    ["✅ Nenhuma contradição crítica detectada"]
  else
    let critical := contradictions.filter fun c => c.contradiction_severity == "crítica"
    let highlights : List String :=
      if critical.isEmpty then [] else
        ["🚨 " ++ toString critical.length ++
          " contradição(ões) CRÍTICA(S) detectada(s) - requer atenção imediata"]
    let highlights := highlights ++
      match clusters with
      | [] => []
      | biggest :: _ =>
          ["⚠️  Tema '" ++ biggest.theme ++ "' é o mais problemático com " ++
            toString biggest.contradictions.length ++ " contradição(ões)"]
    let tribunal_counts :=
      countBy (contradictions.flatMap fun c => [c.case1.tribunal, c.case2.tribunal])
    highlights ++
      match maxByVal tribunal_counts with
      | none => []
      | some most =>
          ["📊 " ++ most.1 ++ " aparece em " ++ toString most.2 ++ " contradição(ões)"]

/-- `ContradictionDetector._generate_recommendations` (lines 491-528). -/
def generate_recommendations (contradictions : List Contradiction)
    (clusters : List ContradictionCluster) : List String :=
  if contradictions.isEmpty then
    ["Jurisprudência consistente - continue monitorando novas decisões"]
  else
    let critical := contradictions.filter fun c => c.contradiction_severity == "crítica"
    let recs : List String :=
      if critical.isEmpty then [] else
        ["🚨 URGENTE: Analise contradições críticas antes de protocolizar petição"]
    let recs := recs ++
      match clusters with
      | biggest :: _ =>
          if biggest.contradictions.length ≥ 3 then
            ["💡 Considere arguir divergência jurisprudencial no tema '" ++
              biggest.theme ++ "'"]
          else []
      | [] => []
    recs ++
      ["📚 Cite as decisões mais recentes e bem fundamentadas em sua petição",
       "⚖️  Monitore se há recurso especial ou extraordinário sobre o tema"]

/-- `ContradictionDetector._create_empty_report` (lines 530-541). -/
def create_empty_report (query : String) (total_cases : Nat) : ContradictionReport :=
  { query := query
    total_cases_analyzed := total_cases
    contradictions_found := 0
    clusters := []
    tribunal_comparison := []
    highlights := ["ℹ️  Poucos casos encontrados para análise"]
    recommendations := ["Tente uma consulta mais ampla ou adicione mais documentos à base"] }

/-- `ContradictionDetector.detect_contradictions` (lines 50-113).
The retrieval step `_fetch_relevant_cases` is an external collaborator;
its result is the parameter `cases`.  Fewer than 2 cases short-circuit
to the empty report; otherwise the full pipeline runs (and an uncaught
exception from the per-pair analysis propagates). -/
def detect_contradictions (cases : List JurisprudenceCase)
    (sim : JurisprudenceCase → JurisprudenceCase → ℚ)
    (freshIds : SimilarCase → String) (orc : SimilarCase → AIOutcome)
    (query : String) (similarity_threshold : ℚ) :
    Except String ContradictionReport := do
  if cases.length < 2 then
    return create_empty_report query cases.length
  else
    let similar_pairs := find_similar_pairs sim cases similarity_threshold
    let contradictions ← analyze_contradictions freshIds orc similar_pairs
    let clusters := cluster_contradictions contradictions
    let tribunal_stats := calculate_tribunal_statistics cases contradictions
    let highlights := generate_highlights contradictions clusters
    let recommendations := generate_recommendations contradictions clusters
    return {
        query := query
        total_cases_analyzed := cases.length
        contradictions_found := contradictions.length
        clusters := clusters
        tribunal_comparison := tribunal_stats
        highlights := highlights
        recommendations := recommendations }

/-- The dead local `priority_map` of `create_alerts` (lines 558-563):
defined in the source but never consulted. -/
def priority_map : List (String × List (String × String)) :=
  [("baixa", [("baixa", "baixa")]),
   ("média", [("média", "média"), ("alta", "alta"), ("crítica", "urgente")]),
   ("alta", [("alta", "alta"), ("crítica", "urgente")]),
   ("crítica", [("crítica", "urgente")])]

/-- The `priority_order` dict of `create_alerts` (line 593).  The
source raises `KeyError` on other strings, but `create_alerts` only
ever produces these four priorities; unknown strings map to rank 4
(never reached). -/
def priorityOrder (p : String) : Nat :=
  if p == "urgente" then 0
  else if p == "alta" then 1
  else if p == "média" then 2
  else if p == "baixa" then 3
  else 4

/-- `ContradictionDetector.create_alerts` (lines 543-596).  Note: the
`priority_threshold` parameter and the local `priority_map` are never
used — no filtering happens. -/
def create_alerts (contradictions : List Contradiction)
    (priority_threshold : String := "média") : List ContradictionAlert :=
  let alerts := contradictions.map fun c =>
    let priority :=
      if c.contradiction_severity == "alta" || c.contradiction_severity == "crítica" then
        (if c.contradiction_severity == "alta" then "alta" else "urgente")
      else if c.contradiction_severity == "média" then "média"
      else "baixa"
    let message := "Contradição detectada entre " ++ c.case1.tribunal ++ " e " ++
      c.case2.tribunal ++ "\n\n" ++ c.explanation ++ "\n\nImpacto: " ++ c.legal_impact
    { contradiction := c
      priority := priority
      message := message
      actionable := c.contradiction_severity == "alta" ||
        c.contradiction_severity == "crítica"
      tribunals_involved := [c.case1.tribunal, c.case2.tribunal] : ContradictionAlert }
  alerts.mergeSort fun a b => priorityOrder a.priority ≤ priorityOrder b.priority

/-! ## `ContradictionAlert.format_alert` (contradiction_models.py lines 120-148) -/

/-- The `emoji` dict lookup `emoji[self.priority]` (lines 122-130):
`KeyError` for a priority outside the dict. -/
def priorityEmoji (p : String) : Except String String :=
  if p == "baixa" then Except.ok "ℹ️"
  else if p == "média" then Except.ok "⚠️"
  else if p == "alta" then Except.ok "🔴"
  else if p == "urgente" then Except.ok "🚨"
  else Except.error ("KeyError: " ++ p)

/-- Python attribute resolution for the list-valued attribute read in
`format_alert` line 132.  The `ContradictionAlert` dataclass declares
the fields `contradiction`, `priority`, `message`, `actionable`,
`tribunals_involved`, `created_at` (lines 110-118); its only
list-of-strings attribute is `tribunals_involved`, and any other name
raises `AttributeError`. -/
def alertGetStrListAttr (a : ContradictionAlert) (name : String) :
    Except String (List String) :=
  if name == "tribunals_involved" then Except.ok a.tribunals_involved
  else
    Except.error
      ("AttributeError: 'ContradictionAlert' object has no attribute '" ++ name ++ "'")

/-- `ContradictionAlert.format_alert` (lines 120-148).  The f-string
evaluates its interpolations left to right: the emoji lookup, the
priority, then `self.tribunais_involved` — a name that is not an
attribute of the dataclass (the field is `tribunals_involved`).  The
trailing similarity-percent and timestamp interpolations are past the
failure point and elided as `…`. -/
def format_alert (a : ContradictionAlert) : Except String String := do
  let emoji ← priorityEmoji a.priority
  let tribs ← alertGetStrListAttr a "tribunais_involved"
  return "\n" ++ emoji ++ " ALERTA DE CONTRADIÇÃO - Prioridade " ++
    a.priority.toUpper ++ "\n\nTribunais: " ++ String.intercalate " vs " tribs ++
    "\nTipo: " ++ a.contradiction.contradiction_type ++
    "\nGravidade: " ++ a.contradiction.contradiction_severity ++
    "\n\n" ++ a.message ++
    "\n\n📋 Caso 1: " ++ a.contradiction.case1.title ++
    "\n   Tribunal: " ++ a.contradiction.case1.tribunal_name ++
    "\n\n📋 Caso 2: " ++ a.contradiction.case2.title ++
    "\n   Tribunal: " ++ a.contradiction.case2.tribunal_name ++
    "\n\n💡 Recomendação: " ++ a.contradiction.recommended_action ++
    "\n\nSimilaridade: …\nData: …\n"

/-! ### Concrete example values used in witnesses and counterexamples -/

/-- A case decided `provido` by one tribunal. -/
def exCaseProvido : JurisprudenceCase :=
  { id := "case-1", title := "Recurso Eleitoral 100", text := "recurso provido",
    tribunal := "TRE-SP", tribunal_name := "TRE de São Paulo",
    decision_type := some "provido", tema := some "registro de candidatura" }

/-- A similar case decided `nao_provido` by another tribunal. -/
def exCaseNaoProvido : JurisprudenceCase :=
  { id := "case-2", title := "Recurso Eleitoral 200", text := "recurso não provido",
    tribunal := "TRE-RJ", tribunal_name := "TRE do Rio de Janeiro",
    decision_type := some "nao_provido", tema := some "registro de candidatura" }

/-- A similar pair with opposite decision labels. -/
def exPair : SimilarCase :=
  { case1 := exCaseProvido, case2 := exCaseNaoProvido,
    similarity_score := 4/5, semantic_distance := 1/5 }

/-- A successfully parsed adjudication payload that confirms the
contradiction but omits the `type` key. -/
def exDictMissingType : AnalysisDict :=
  { is_contradiction := some true }

/-- A detected contradiction of the lowest severity. -/
def exContradictionBaixa : Contradiction :=
  { id := "contr-1", case1 := exCaseProvido, case2 := exCaseNaoProvido,
    similarity_score := 4/5, contradiction_type := "decisao_oposta",
    contradiction_severity := "baixa", explanation := "Divergência de resultado",
    legal_impact := "Incerteza jurisprudencial",
    recommended_action := "Verificar precedentes" }

/-- The pair produced by `find_similar_pairs` on
`[exCaseProvido, exCaseNaoProvido]` with constant similarity `9/10`. -/
def exFoundPair : SimilarCase :=
  { case1 := exCaseProvido, case2 := exCaseNaoProvido,
    similarity_score := 9/10, semantic_distance := 1 - 9/10 }

/-! ## Data model of `change_monitor_models.py` -/

/-- The per-case dict built by `_collect_historical_cases`
(change_monitor.py lines 135-142), minus the raw metadata map. -/
structure CaseData where
  id : String
  text : String
  tribunal : String
  year : Int
  decision_type : String
  deriving Repr, DecidableEq

/-- `TrendPoint` (change_monitor_models.py lines 21-27), minus the
wall-clock `date` (always `datetime.now()` in the source). -/
structure TrendPoint where
  favorable_ratio : ℚ
  total_cases : Nat
  representative_case : Option CaseData := none
  deriving Repr, DecidableEq

/-- `TrendAnalysis` (lines 67-90), minus the wall-clock period bounds
and the never-assigned prediction fields.  `volatility` is a real
number (the source stores `variance ** 0.5`). -/
structure TrendAnalysis where
  tribunal : String
  theme : String
  trend_points : List TrendPoint
  overall_trend : String
  trend_strength : ℚ
  volatility : ℝ
  average_favorable_ratio : ℚ
  max_favorable_ratio : ℚ
  min_favorable_ratio : ℚ
  total_cases_analyzed : Nat

/-- `ChangeDetection` (lines 30-64), minus `detected_at` and the
never-assigned `landmark_cases`. -/
structure ChangeDetection where
  id : String
  tribunal : String
  theme : String
  change_type : String
  severity : String
  before_period : String
  before_ratio : ℚ
  before_cases : Nat
  after_period : String
  after_ratio : ℚ
  after_cases : Nat
  change_magnitude : ℚ
  confidence : ℚ
  explanation : String
  impact_assessment : String
  recommended_action : String

/-- `MonitoringConfig` (lines 210-229) with its default field values. -/
structure MonitoringConfig where
  themes : List String
  tribunals : List String
  short_term_days : Nat := 90
  medium_term_days : Nat := 365
  long_term_days : Nat := 730
  change_threshold : ℚ := 20/100
  confidence_threshold : ℚ := 70/100
  min_cases_required : Nat := 5
  alert_on_inversion : Bool := true
  alert_on_trend : Bool := true
  alert_on_volatility : Bool := false
  deriving Repr, DecidableEq

/-! ## `ChangeMonitor` (change_monitor.py) -/

/-- `ChangeMonitor._determine_trend_direction` (lines 257-274).
`len(ratios)//2` is Nat division. -/
def determine_trend_direction (ratios : List ℚ) : String :=
  if ratios.length < 2 then "estável"
  else
    let first_half := (ratios.take (ratios.length / 2)).sum / ((ratios.length / 2 : ℕ) : ℚ)
    let second_half := (ratios.drop (ratios.length / 2)).sum /
      ((ratios.length - ratios.length / 2 : ℕ) : ℚ)
    let diff := second_half - first_half
    if |diff| < 1/10 then "estável"
    else if diff > 2/10 then "crescente"
    else if diff < -(2/10) then "decrescente"
    else "volátil"

/-- `ChangeMonitor._calculate_volatility` (lines 276-283): the
population standard deviation, `0.0` for fewer than 2 points. -/
noncomputable def calculate_volatility (ratios : List ℚ) : ℝ :=
  if ratios.length < 2 then 0
  else
    let mean := ratios.sum / (ratios.length : ℚ)
    let variance := (ratios.map fun r => (r - mean) ^ 2).sum / (ratios.length : ℚ)
    Real.sqrt (variance : ℚ)

/-- Dict lookup `periods[period]`; `periods` models a Python dict, so
its keys are distinct and lookups hit (the default is never used for
keys taken from the dict itself). -/
def lookupPeriod (periods : List (String × List CaseData)) (k : String) : List CaseData :=
  ((periods.find? fun p => p.1 == k).map Prod.snd).getD []

/-- Python `sorted(periods.keys())`. -/
def sortedKeys (periods : List (String × List CaseData)) : List String :=
  (periods.map Prod.fst).mergeSort fun a b => decide (a ≤ b)

/-- One iteration of the `for period in sorted(periods.keys())` loop
of `_calculate_trend` (lines 215-233): a bucket with fewer than 3
cases (the hardcoded `if len(cases) < 3` — `self.config.min_cases_required`
is not consulted) is skipped; a kept bucket yields its favorable ratio
(`favorable / total if total > 0 else 0.0`), its case count, and its
representative case (`cases[0] if cases else None`). -/
def bucketPoint (periods : List (String × List CaseData)) (period : String) :
    Option (ℚ × Nat × Option CaseData) :=
  let cases := lookupPeriod periods period
  if cases.length < 3 then none
  else
    let favorable := (cases.filter fun c => c.decision_type == "favorável").length
    let total := cases.length
    let ratio : ℚ := if total > 0 then (favorable : ℚ) / (total : ℚ) else 0
    some (ratio, total, cases.head?)

/-- The whole bucket loop of `_calculate_trend`. -/
def trendBucketData (periods : List (String × List CaseData)) :
    List (ℚ × Nat × Option CaseData) :=
  (sortedKeys periods).filterMap (bucketPoint periods)

/-- Python `max` over a nonempty list (the empty case never occurs in
`_calculate_trend`, which guards on nonempty `trend_points`). -/
def pyMax (l : List ℚ) : ℚ :=
  match l with
  | [] => 0
  | h :: t => t.foldl max h

/-- Python `min` over a nonempty list. -/
def pyMin (l : List ℚ) : ℚ :=
  match l with
  | [] => 0
  | h :: t => t.foldl min h

/-- `ChangeMonitor._calculate_trend` (lines 201-255): `None` when
`periods` is empty or no bucket qualifies, otherwise the
`TrendAnalysis` over the qualifying buckets in sorted period order. -/
noncomputable def calculate_trend (tribunal theme : String)
    (periods : List (String × List CaseData)) : Option TrendAnalysis :=
  if periods.isEmpty then none
  else
    let selected := trendBucketData periods
    let trend_points := selected.map fun x =>
      { favorable_ratio := x.1, total_cases := x.2.1,
        representative_case := x.2.2 : TrendPoint }
    let favorable_ratios := selected.map fun x => x.1
    if trend_points.isEmpty then none
    else
      some
        { tribunal := tribunal
          theme := theme
          trend_points := trend_points
          overall_trend := determine_trend_direction favorable_ratios
          trend_strength :=
            if favorable_ratios.length > 1 then
              |favorable_ratios.getLast?.getD 0 - favorable_ratios.head?.getD 0|
            else 0
          volatility := calculate_volatility favorable_ratios
          average_favorable_ratio := favorable_ratios.sum / (favorable_ratios.length : ℚ)
          max_favorable_ratio := pyMax favorable_ratios
          min_favorable_ratio := pyMin favorable_ratios
          total_cases_analyzed := (trend_points.map fun p => p.total_cases).sum }

/-- Outcome of the LLM call inside `_ai_analyze_change` (lines
388-405): either some step raised, or `json.loads` returned an object
whose three keys are read with `.get` and per-key defaults. -/
inductive ChangeAIOutcome where
  | raised
  | parsed (explanation impact recommendation : Option String)
  deriving Repr, DecidableEq

/-- `ChangeMonitor._ai_analyze_change` (lines 363-413): the triple
`(explanation, impact, recommendation)`.  Missing keys fall back via
`result.get(..., default)`; a raised exception falls back to the
templated triple naming `change_type`. -/
def ai_analyze_change (outcome : ChangeAIOutcome) (change_type : String) :
    String × String × String :=
  match outcome with
  | .raised =>
      ("Mudança " ++ change_type ++ " detectada no entendimento do tribunal",
       "Requer atenção às novas decisões",
       "Revisar estratégia processual à luz da nova tendência")
  | .parsed e i r =>
      (e.getD "Mudança detectada nos padrões decisórios",
       i.getD "Impacto significativo nas estratégias processuais",
       r.getD "Acompanhar evolução e adaptar estratégia")

/-- `ChangeMonitor._analyze_change` (lines 311-361): the ordered
change-type/severity decision table, then the `ChangeDetection`
record.  The source's return type is `Optional` but every path returns
a record. -/
noncomputable def analyze_change (freshId : String) (outcome : ChangeAIOutcome)
    (trend : TrendAnalysis) (before after : TrendPoint) (theme : String) :
    ChangeDetection :=
  let change_magnitude := |after.favorable_ratio - before.favorable_ratio|
  let ts :=
    if before.favorable_ratio > 7/10 ∧ after.favorable_ratio < 3/10 then
      ("inversão_total", "crítica")
    else if after.favorable_ratio < before.favorable_ratio - 3/10 then
      ("endurecimento", "alta")
    else if after.favorable_ratio > before.favorable_ratio + 3/10 then
      ("flexibilização", "alta")
    else if trend.volatility > 3/10 then
      ("divergência", "média")
    else
      ("consolidação", "baixa")
  let air := ai_analyze_change outcome ts.1
  { id := freshId
    tribunal := trend.tribunal
    theme := theme
    change_type := ts.1
    severity := ts.2
    before_period := "Período anterior"
    before_ratio := before.favorable_ratio
    before_cases := before.total_cases
    after_period := "Período recente"
    after_ratio := after.favorable_ratio
    after_cases := after.total_cases
    change_magnitude := change_magnitude
    confidence := min 1 (((before.total_cases + after.total_cases : ℕ) : ℚ) / 20)
    explanation := air.1
    impact_assessment := air.2.1
    recommended_action := air.2.2 }

/-- `trend.trend_points[0]`, reached only under the ≥ 2 points guard. -/
def firstPoint (t : TrendAnalysis) : TrendPoint :=
  t.trend_points.head?.getD { favorable_ratio := 0, total_cases := 0 }

/-- `trend.trend_points[-1]`, reached only under the ≥ 2 points guard. -/
def lastPoint (t : TrendAnalysis) : TrendPoint :=
  t.trend_points.getLast?.getD { favorable_ratio := 0, total_cases := 0 }

/-- The `change_magnitude` of `_detect_changes` (line 301). -/
def changeMag (t : TrendAnalysis) : ℚ :=
  |(lastPoint t).favorable_ratio - (firstPoint t).favorable_ratio|

/-- One iteration of the `for trend in trends` loop of
`_detect_changes` (lines 293-307): skip a trend with fewer than 2
points; emit `_analyze_change`'s record when the first-to-last
magnitude reaches `config.change_threshold` (the `if change:`
truthiness test always passes — a dataclass instance is truthy). -/
noncomputable def changeEmit (cfg : MonitoringConfig)
    (freshIds : TrendAnalysis → String) (orc : TrendAnalysis → ChangeAIOutcome)
    (theme : String) (trend : TrendAnalysis) : Option ChangeDetection :=
  if trend.trend_points.length < 2 then none
  else
    let change_magnitude := changeMag trend
    if change_magnitude ≥ cfg.change_threshold then
      some (analyze_change (freshIds trend) (orc trend) trend
        (firstPoint trend) (lastPoint trend) theme)
    else none

/-- `ChangeMonitor._detect_changes` (lines 285-309). -/
noncomputable def detect_changes (cfg : MonitoringConfig)
    (freshIds : TrendAnalysis → String) (orc : TrendAnalysis → ChangeAIOutcome)
    (trends : List TrendAnalysis) (theme : String) : List ChangeDetection :=
  trends.filterMap (changeEmit cfg freshIds orc theme)

/-! ### Spec-side definitions for the trend engine (from §4.5 of the spec) -/

/-- Arithmetic mean. -/
def meanQ (l : List ℚ) : ℚ := l.sum / (l.length : ℚ)

/-- Modelled from the spec: "split the ratio series at its midpoint,
compare the means of the two halves; |diff| < 0.1 → stable; diff > 0.2
→ increasing; diff < −0.2 → decreasing; otherwise → volatile". -/
def directionSpec (l : List ℚ) : String :=
  let diff := meanQ (l.drop (l.length / 2)) - meanQ (l.take (l.length / 2))
  if |diff| < 1/10 then "estável"
  else if diff > 2/10 then "crescente"
  else if diff < -(2/10) then "decrescente"
  else "volátil"

/-- Population variance in the textbook alternative form
`E[x²] − (E[x])²`. -/
def popVariance (l : List ℚ) : ℚ :=
  meanQ (l.map fun x => x ^ 2) - meanQ l ^ 2

/-- Modelled from the spec: "Volatility = population standard
deviation of the ratio series". -/
noncomputable def popStdDev (l : List ℚ) : ℝ :=
  Real.sqrt (popVariance l)

/-- Modelled from the spec: the fixed change-type/severity decision
table, evaluated in order (§4.5 items 1-5). -/
noncomputable def changeTableSpec (before after : ℚ) (volatility : ℝ) :
    String × String :=
  if before > 7/10 ∧ after < 3/10 then ("inversão_total", "crítica")
  else if after < before - 3/10 then ("endurecimento", "alta")
  else if after > before + 3/10 then ("flexibilização", "alta")
  else if volatility > 3/10 then ("divergência", "média")
  else ("consolidação", "baixa")

/-- Modelled from the spec: a bucket with at least 3 cases contributes
its favorable ratio (favorable-labeled cases over total cases) and its
case count; a smaller bucket contributes nothing. -/
def specBucket (periods : List (String × List CaseData)) (period : String) :
    Option (ℚ × Nat) :=
  let cases := lookupPeriod periods period
  if 3 ≤ cases.length then
    some (((cases.filter fun c => c.decision_type == "favorável").length : ℚ) /
      (cases.length : ℚ), cases.length)
  else none

/-- Modelled from the spec: the qualifying time buckets in sorted
period order. -/
def specQualifyingBuckets (periods : List (String × List CaseData)) :
    List (ℚ × Nat) :=
  (sortedKeys periods).filterMap (specBucket periods)

/-! ### Concrete example values for the trend engine -/

/-- A favorable-labeled historical case. -/
def exCaseDataFav (n : Nat) : CaseData :=
  { id := "hist-" ++ toString n, text := "recurso provido", tribunal := "TRE-SP",
    year := 2024, decision_type := "favorável" }

/-- A bucket of 4 favorable cases: below the configured default
minimum (5) but at least the hardcoded 3. -/
def exBucket4 : List CaseData :=
  [exCaseDataFav 1, exCaseDataFav 2, exCaseDataFav 3, exCaseDataFav 4]

/-- One period holding the 4-case bucket. -/
def exPeriods4 : List (String × List CaseData) :=
  [("2024-S1", exBucket4)]

/-- The default monitoring configuration (no themes or tribunals). -/
def exCfg : MonitoringConfig := { themes := [], tribunals := [] }

/-- A two-point trend falling from 4/5 to 1/10 favorable. -/
def exTrendReversal : TrendAnalysis :=
  { tribunal := "TRE-SP"
    theme := "inelegibilidade"
    trend_points :=
      [{ favorable_ratio := 4/5, total_cases := 5 },
       { favorable_ratio := 1/10, total_cases := 6 }]
    overall_trend := "decrescente"
    trend_strength := |1/10 - 4/5|
    volatility := 0
    average_favorable_ratio := 9/20
    max_favorable_ratio := 4/5
    min_favorable_ratio := 1/10
    total_cases_analyzed := 11 }

/-- The change emitted for `exTrendReversal`. -/
noncomputable def exChangeReversal : ChangeDetection :=
  analyze_change "change-1" ChangeAIOutcome.raised exTrendReversal
    (firstPoint exTrendReversal) (lastPoint exTrendReversal) "inelegibilidade"

end DJE

/-! ## Theorems -/

namespace DJE

lemma anyPatternMatches_eq_any (ps : List Pattern) (t : List Char) :
    anyPatternMatches ps t = ps.any fun p => reSearch p t := by
  induction ps with
  | nil => rfl
  | cons p rest ih => simp [anyPatternMatches, ih]

lemma detect_decision_eq (text : String) :
    detect_decision text =
      if anyPatternMatches favorable_patterns (pyLower text) then "favorável"
      else if anyPatternMatches unfavorable_patterns (pyLower text) then "desfavorável"
      else "neutro" := rfl

lemma detectDecisionTypeAux_eq_firstMatchLabel (ps : List (String × Pattern)) (t : List Char) :
    detectDecisionTypeAux ps t = firstMatchLabel ps t := by
  induction ps with
  | nil => rfl
  | cons lp rest ih =>
      obtain ⟨label, pat⟩ := lp
      by_cases h : reSearch pat t <;>
        simp [detectDecisionTypeAux, firstMatchLabel, List.find?_cons, h, ih]

/-- C6: both decision taggers apply their ordered pattern groups and
return the label of the first matching group.  For the trend tagger
`_detect_decision` the favorable group is checked before the
unfavorable group and the no-match label (`unknown` in the spec's
vocabulary) is `"neutro"`; for `_detect_decision_type` the result is
the label of the first matching entry of `decision_patterns` and the
no-match result is `None`.  Both are total Lean functions, hence pure
and non-raising for every text. -/
theorem c6_decision_tagger_first_match (text : String) :
    (detect_decision text = "favorável" ↔
      ∃ p ∈ favorable_patterns, reSearch p (pyLower text) = true)
    ∧ (detect_decision text = "desfavorável" ↔
      (∀ p ∈ favorable_patterns, ¬reSearch p (pyLower text)) ∧
        ∃ p ∈ unfavorable_patterns, reSearch p (pyLower text) = true)
    ∧ (detect_decision text = "neutro" ↔
      ∀ p ∈ favorable_patterns ++ unfavorable_patterns, ¬reSearch p (pyLower text))
    ∧ detect_decision_type text = firstMatchLabel decision_patterns (pyLower text)
    ∧ (detect_decision_type text = none ↔
      ∀ lp ∈ decision_patterns, ¬reSearch lp.2 (pyLower text)) := by
  have hF : anyPatternMatches favorable_patterns (pyLower text) = true ↔
      ∃ p ∈ favorable_patterns, reSearch p (pyLower text) = true := by
    rw [anyPatternMatches_eq_any, List.any_eq_true]
  have hU : anyPatternMatches unfavorable_patterns (pyLower text) = true ↔
      ∃ p ∈ unfavorable_patterns, reSearch p (pyLower text) = true := by
    rw [anyPatternMatches_eq_any, List.any_eq_true]
  have hfirst : detect_decision_type text = firstMatchLabel decision_patterns (pyLower text) :=
    detectDecisionTypeAux_eq_firstMatchLabel decision_patterns (pyLower text)
  refine ⟨?_, ?_, ?_, hfirst, ?_⟩
  · rw [detect_decision_eq]
    cases hb1 : anyPatternMatches favorable_patterns (pyLower text) with
    | true =>
        rw [if_pos rfl]
        exact iff_of_true rfl (hF.mp hb1)
    | false =>
        rw [if_neg (by simp)]
        refine iff_of_false (by split <;> decide) fun h => ?_
        rw [hF.mpr h] at hb1
        cases hb1
  · rw [detect_decision_eq]
    cases hb1 : anyPatternMatches favorable_patterns (pyLower text) with
    | true =>
        rw [if_pos rfl]
        refine iff_of_false (by decide) ?_
        rintro ⟨hall, -⟩
        obtain ⟨p, hp, hs⟩ := hF.mp hb1
        exact hall p hp hs
    | false =>
        rw [if_neg (by simp)]
        have hallF : ∀ p ∈ favorable_patterns, ¬reSearch p (pyLower text) = true := by
          intro p hp hs
          rw [hF.mpr ⟨p, hp, hs⟩] at hb1
          cases hb1
        cases hb2 : anyPatternMatches unfavorable_patterns (pyLower text) with
        | true =>
            rw [if_pos rfl]
            exact iff_of_true rfl ⟨hallF, hU.mp hb2⟩
        | false =>
            rw [if_neg (by simp)]
            refine iff_of_false (by decide) ?_
            rintro ⟨-, h⟩
            rw [hU.mpr h] at hb2
            cases hb2
  · rw [detect_decision_eq]
    cases hb1 : anyPatternMatches favorable_patterns (pyLower text) with
    | true =>
        rw [if_pos rfl]
        refine iff_of_false (by decide) fun hall => ?_
        obtain ⟨p, hp, hs⟩ := hF.mp hb1
        exact hall p (List.mem_append_left _ hp) hs
    | false =>
        rw [if_neg (by simp)]
        have hallF : ∀ p ∈ favorable_patterns, ¬reSearch p (pyLower text) = true := by
          intro p hp hs
          rw [hF.mpr ⟨p, hp, hs⟩] at hb1
          cases hb1
        cases hb2 : anyPatternMatches unfavorable_patterns (pyLower text) with
        | true =>
            rw [if_pos rfl]
            refine iff_of_false (by decide) fun hall => ?_
            obtain ⟨p, hp, hs⟩ := hU.mp hb2
            exact hall p (List.mem_append_right _ hp) hs
        | false =>
            rw [if_neg (by simp)]
            refine iff_of_true rfl fun p hp hs => ?_
            rcases List.mem_append.mp hp with h | h
            · exact hallF p h hs
            · rw [hU.mpr ⟨p, h, hs⟩] at hb2
              cases hb2
  · rw [hfirst]
    simp [firstMatchLabel, List.find?_eq_none]

/-- Witness for C6 at concrete inputs. -/
theorem c6_decision_tagger_first_match_witness :
    detect_decision "recurso provido" = "favorável" ∧
      detect_decision_type "texto sem marcador" = none :=
  ⟨(c6_decision_tagger_first_match "recurso provido").1.mpr
      ⟨[strAtoms "provid" ++ [Atom.cls ['o', 'a']]], by decide, by decide⟩,
    (c6_decision_tagger_first_match "texto sem marcador").2.2.2.2.mpr (by decide)⟩

/-! ### Reduction lemmas for the `Except` embedding -/

@[simp] lemma getKey_some {α : Type} (x : α) (k : String) :
    getKey (some x) k = Except.ok x := rfl

@[simp] lemma getKey_none {α : Type} (k : String) :
    getKey (none : Option α) k = Except.error ("KeyError: " ++ k) := rfl

@[simp] lemma except_bind_ok {α β : Type} (x : α) (f : α → Except String β) :
    (Except.ok x >>= f) = f x := rfl

@[simp] lemma except_bind_error {α β : Type} (e : String) (f : α → Except String β) :
    ((Except.error e : Except String α) >>= f) = Except.error e := rfl

@[simp] lemma except_pure_eq {α : Type} (x : α) :
    (pure x : Except String α) = Except.ok x := rfl

/-- When `_has_opposite_decisions` accepts, the two labels are an entry
of the `opposites` table (in one of the two orders). -/
lemma has_opposite_decisions_spec (d1 d2 : Option String)
    (h : has_opposite_decisions d1 d2 = true) :
    ∃ p ∈ opposites,
      (d1 = some p.1 ∧ d2 = some p.2) ∨ (d1 = some p.2 ∧ d2 = some p.1) := by
  cases d1 with
  | none => simp [has_opposite_decisions] at h
  | some a =>
    cases d2 with
    | none => simp [has_opposite_decisions] at h
    | some b =>
      have h : (if (a == "" || b == "") = true then false
          else opposites.any fun p => setPairEq a b p) = true := h
      by_cases hab : (a == "" || b == "") = true
      · rw [if_pos hab] at h
        cases h
      · rw [if_neg hab, List.any_eq_true] at h
        obtain ⟨p, hp, hpe⟩ := h
        refine ⟨p, hp, ?_⟩
        unfold setPairEq at hpe
        rcases Bool.or_eq_true_iff.mp hpe with hh | hh <;>
          rcases Bool.and_eq_true_iff.mp hh with ⟨h1, h2⟩ <;>
            rw [beq_iff_eq] at h1 h2 <;> subst h1 h2
        · exact Or.inl ⟨rfl, rfl⟩
        · exact Or.inr ⟨rfl, rfl⟩

/-- C1: every `Contradiction` returned by `_check_contradiction` keeps
the pair's two cases, whose decision labels form one of the three
registered opposite pairs; and whenever the labels do not form such a
pair (in particular when either label is `None`), no `Contradiction` is
produced. -/
theorem c1_contradiction_requires_opposite_labels (freshId : String)
    (outcome : AIOutcome) (pair : SimilarCase) :
    (∀ c : Contradiction,
      check_contradiction freshId outcome pair = Except.ok (some c) →
        c.case1 = pair.case1 ∧ c.case2 = pair.case2 ∧
          ∃ p ∈ opposites,
            (pair.case1.decision_type = some p.1 ∧ pair.case2.decision_type = some p.2) ∨
              (pair.case1.decision_type = some p.2 ∧ pair.case2.decision_type = some p.1))
    ∧ (has_opposite_decisions pair.case1.decision_type pair.case2.decision_type = false →
        check_contradiction freshId outcome pair = Except.ok none) := by
  constructor
  · intro c hc
    by_cases h : has_opposite_decisions pair.case1.decision_type pair.case2.decision_type
    · have hcase : c.case1 = pair.case1 ∧ c.case2 = pair.case2 := by
        unfold check_contradiction at hc
        rw [if_pos h] at hc
        simp only [] at hc
        set d := ai_contradiction_analysis outcome pair.case1 pair.case2 with hd
        rcases hic : d.is_contradiction with _ | b
        · rw [hic] at hc
          simp at hc
        · rw [hic] at hc
          simp only [getKey_some, except_bind_ok] at hc
          cases b

          · simp at hc
          · rw [if_pos rfl] at hc
            rcases hty : d.type with _ | ty
            · rw [hty] at hc; simp at hc
            · rw [hty] at hc; simp only [getKey_some, except_bind_ok] at hc
              rcases hsev : d.severity with _ | sev
              · rw [hsev] at hc; simp at hc
              · rw [hsev] at hc; simp only [getKey_some, except_bind_ok] at hc
                rcases hex : d.explanation with _ | ex
                · rw [hex] at hc; simp at hc
                · rw [hex] at hc; simp only [getKey_some, except_bind_ok] at hc
                  rcases hli : d.legal_impact with _ | li
                  · rw [hli] at hc; simp at hc
                  · rw [hli] at hc; simp only [getKey_some, except_bind_ok] at hc
                    rcases hre : d.recommendation with _ | re
                    · rw [hre] at hc; simp at hc
                    · rw [hre] at hc; simp only [getKey_some, except_bind_ok] at hc
                      obtain rfl : _ = c := by simpa using hc
                      exact ⟨rfl, rfl⟩
      exact ⟨hcase.1, hcase.2, has_opposite_decisions_spec _ _ h⟩
    · unfold check_contradiction at hc
      rw [if_neg h] at hc
      simp at hc
  · intro h
    unfold check_contradiction
    rw [if_neg (by simp [h])]
    rfl

/-- Witness for C1: with opposite labels and a confirming adjudication,
a contradiction is produced and its labels are the registered pair
`(provido, nao_provido)`. -/
theorem c1_contradiction_requires_opposite_labels_witness :
    ∃ c : Contradiction,
      check_contradiction "uuid-1" AIOutcome.raised exPair = Except.ok (some c) ∧
        c.case1 = exPair.case1 ∧ c.case2 = exPair.case2 ∧
          ∃ p ∈ opposites,
            (exPair.case1.decision_type = some p.1 ∧ exPair.case2.decision_type = some p.2) ∨
              (exPair.case1.decision_type = some p.2 ∧ exPair.case2.decision_type = some p.1) := by
  refine ⟨{ id := "uuid-1", case1 := exCaseProvido, case2 := exCaseNaoProvido,
            similarity_score := 4/5, contradiction_type := "decisao_oposta",
            contradiction_severity := "média",
            explanation := "Decisões opostas detectadas: TRE-SP vs TRE-RJ",
            legal_impact := "Possível divergência jurisprudencial entre tribunais",
            recommended_action := "Verificar qual entendimento é mais recente e fundamentado" },
          ?_, ?_⟩
  · rfl
  · exact (c1_contradiction_requires_opposite_labels "uuid-1" AIOutcome.raised exPair).1 _ rfl

/-- C5 (amended): when the external adjudication interaction raises —
an API failure or a `json.loads` failure — the classifier falls back to
the deterministic default and still returns a `Contradiction` with
`is_contradiction=true`, type `decisao_oposta`, severity `média` and
the templated explanation naming the two tribunals.  (As stated, the
claim fails for malformed-but-parseable data; see the
counterexample.) -/
theorem c5_fallback_on_raised_adjudication (freshId : String) (pair : SimilarCase)
    (h : has_opposite_decisions pair.case1.decision_type pair.case2.decision_type = true) :
    check_contradiction freshId AIOutcome.raised pair = Except.ok (some
      { id := freshId
        case1 := pair.case1
        case2 := pair.case2
        similarity_score := pair.similarity_score
        contradiction_type := "decisao_oposta"
        contradiction_severity := "média"
        explanation := "Decisões opostas detectadas: " ++ pair.case1.tribunal ++
          " vs " ++ pair.case2.tribunal
        legal_impact := "Possível divergência jurisprudencial entre tribunais"
        recommended_action := "Verificar qual entendimento é mais recente e fundamentado" }) := by
  unfold check_contradiction
  rw [if_pos h]
  rfl

/-- Witness for C5 at the concrete opposite-label pair. -/
theorem c5_fallback_on_raised_adjudication_witness :
    has_opposite_decisions exPair.case1.decision_type exPair.case2.decision_type = true ∧
      check_contradiction "uuid-2" AIOutcome.raised exPair ≠ Except.ok none :=
  ⟨by decide, by
    rw [c5_fallback_on_raised_adjudication "uuid-2" exPair (by decide)]
    simp⟩

/-- Counterexample to C5 as stated: the adjudication call succeeds and
returns parseable JSON that is malformed with respect to the expected
schema (it confirms the contradiction but omits the `type` key).  The
classifier does not fall back: the `analysis['type']` subscript raises
an uncaught `KeyError`, no `Contradiction` is returned, and the error
propagates out of the per-pair loop, aborting the batch. -/
theorem c5_malformed_parsed_data_aborts :
    check_contradiction "uuid-3" (AIOutcome.parsed exDictMissingType) exPair =
      Except.error "KeyError: type" ∧
    analyze_contradictions (fun _ => "uuid-3") (fun _ => AIOutcome.parsed exDictMissingType)
      [exPair] = Except.error "KeyError: type" :=
  ⟨rfl, rfl⟩

/-- C8: `_find_similar_pairs` never pairs two cases of the same
tribunal: the `case1.tribunal == case2.tribunal` guard skips them. -/
theorem c8_no_same_tribunal_pairs (sim : JurisprudenceCase → JurisprudenceCase → ℚ)
    (cases : List JurisprudenceCase) (threshold : ℚ) :
    ∀ p ∈ find_similar_pairs sim cases threshold,
      p.case1.tribunal ≠ p.case2.tribunal := by
  intro p hp
  rw [find_similar_pairs, List.mem_mergeSort] at hp
  induction cases with
  | nil => cases hp
  | cons c1 rest ih =>
    rw [pairCandidates, List.mem_append] at hp
    rcases hp with hp | hp
    · obtain ⟨c2, _, hf⟩ := List.mem_filterMap.mp hp
      by_cases he : c1.tribunal == c2.tribunal
      · rw [if_pos he] at hf
        cases hf
      · rw [if_neg he] at hf
        have hf' :
            (if threshold ≤ sim c1 c2 then
              some { case1 := c1, case2 := c2, similarity_score := sim c1 c2,
                     semantic_distance := 1 - sim c1 c2 : SimilarCase }
            else none) = some p := hf
        by_cases ht : threshold ≤ sim c1 c2
        · rw [if_pos ht] at hf'
          obtain rfl : _ = p := Option.some.inj hf'
          simpa using he
        · rw [if_neg ht] at hf'
          cases hf'
    · exact ih hp

/-- Witness for C8: the concrete two-case run produces `exFoundPair`,
whose tribunals differ. -/
theorem c8_no_same_tribunal_pairs_witness :
    exFoundPair ∈ find_similar_pairs (fun _ _ => 9/10)
        [exCaseProvido, exCaseNaoProvido] (3/4) ∧
      exFoundPair.case1.tribunal ≠ exFoundPair.case2.tribunal := by
  have hpc : pairCandidates (fun _ _ => (9 : ℚ)/10) (3/4) [exCaseProvido, exCaseNaoProvido] =
      [exFoundPair] := by
    simp only [pairCandidates, List.filterMap_cons, List.filterMap_nil]
    norm_num [exCaseProvido, exCaseNaoProvido, exFoundPair]
    simp
  have hrun : find_similar_pairs (fun _ _ => 9/10) [exCaseProvido, exCaseNaoProvido] (3/4) =
      [exFoundPair] := by
    rw [find_similar_pairs, hpc]
    simp
  refine ⟨hrun ▸ List.mem_singleton_self _, ?_⟩
  exact c8_no_same_tribunal_pairs (fun _ _ => 9/10) [exCaseProvido, exCaseNaoProvido] (3/4)
    exFoundPair (hrun ▸ List.mem_singleton_self _)

/-- C9: with fewer than 2 retrieved cases, `detect_contradictions`
returns (does not raise) the structured empty report: zero
contradictions, the retrieved-case count, no clusters, and a non-empty
insufficient-data highlight. -/
theorem c9_sparse_data_empty_report (cases : List JurisprudenceCase)
    (sim : JurisprudenceCase → JurisprudenceCase → ℚ)
    (freshIds : SimilarCase → String) (orc : SimilarCase → AIOutcome)
    (query : String) (threshold : ℚ) (h : cases.length < 2) :
    ∃ r, detect_contradictions cases sim freshIds orc query threshold = Except.ok r ∧
      r.contradictions_found = 0 ∧ r.total_cases_analyzed = cases.length ∧
      r.clusters = [] ∧ r.highlights ≠ [] := by
  refine ⟨create_empty_report query cases.length, ?_, rfl, rfl, rfl, by simp [create_empty_report]⟩
  unfold detect_contradictions
  rw [if_pos h]
  rfl

/-- Witness for C9 on a one-case retrieval. -/
theorem c9_sparse_data_empty_report_witness :
    [exCaseProvido].length < 2 ∧
      ∃ r, detect_contradictions [exCaseProvido] (fun _ _ => 9/10) (fun _ => "uuid-4")
          (fun _ => AIOutcome.raised) "registro" (3/4) = Except.ok r ∧
        r.contradictions_found = 0 ∧ r.total_cases_analyzed = [exCaseProvido].length ∧
        r.clusters = [] ∧ r.highlights ≠ [] :=
  ⟨by decide,
    c9_sparse_data_empty_report [exCaseProvido] (fun _ _ => 9/10) (fun _ => "uuid-4")
      (fun _ => AIOutcome.raised) "registro" (3/4) (by decide)⟩

/-- C2 (code bug): `create_alerts` maps severity `baixa` to priority
`baixa` but does not enforce the priority floor — with floor `alta`, the
`baixa`-priority alert is still returned (the `priority_threshold`
parameter and the local `priority_map` are dead).  `priorityOrder`
witnesses that `baixa` ranks strictly below the requested floor. -/
theorem c2_priority_floor_not_enforced :
    (create_alerts [exContradictionBaixa] "alta").map (fun a => a.priority) = ["baixa"] ∧
      priorityOrder "alta" < priorityOrder "baixa" := by
  constructor
  · simp only [create_alerts, List.map_cons, List.map_nil, List.mergeSort_singleton]
    decide
  · decide

/-- C10: for every `ContradictionAlert` (with one of the four priorities
declared by the dataclass's `Literal` annotation), `format_alert` raises
`AttributeError`: it reads `self.tribunais_involved`, but the dataclass
field is spelled `tribunals_involved`.  The human-readable rendering at
this interface never succeeds. -/
theorem c10_format_alert_always_raises (a : ContradictionAlert)
    (h : a.priority = "baixa" ∨ a.priority = "média" ∨ a.priority = "alta" ∨
      a.priority = "urgente") :
    format_alert a =
      Except.error
        "AttributeError: 'ContradictionAlert' object has no attribute 'tribunais_involved'" := by
  unfold format_alert priorityEmoji alertGetStrListAttr
  rcases h with h | h | h | h <;> rw [h] <;> rfl

/-- Witness for C10 at a concrete alert. -/
theorem c10_format_alert_always_raises_witness :
    ({ contradiction := exContradictionBaixa, priority := "média", message := "m",
       actionable := false,
       tribunals_involved := ["TRE-SP", "TRE-RJ"] } : ContradictionAlert).priority = "média" ∧
      format_alert
        { contradiction := exContradictionBaixa, priority := "média", message := "m",
          actionable := false, tribunals_involved := ["TRE-SP", "TRE-RJ"] } =
        Except.error
          "AttributeError: 'ContradictionAlert' object has no attribute 'tribunais_involved'" :=
  ⟨rfl,
    c10_format_alert_always_raises
      { contradiction := exContradictionBaixa, priority := "média", message := "m",
        actionable := false, tribunals_involved := ["TRE-SP", "TRE-RJ"] }
      (Or.inr (Or.inl rfl))⟩


/-! ### Lemmas for the trend engine -/

lemma sum_sq_dev (l : List ℚ) (m : ℚ) :
    (l.map fun r => (r - m) ^ 2).sum =
      (l.map fun x => x ^ 2).sum - 2 * m * l.sum + l.length * m ^ 2 := by
  induction l with
  | nil => simp
  | cons a t ih =>
      simp only [List.map_cons, List.sum_cons, ih, List.length_cons]
      push_cast
      ring

/-- C4: for a series of at least 2 points the source's trend-direction
classifier agrees with the spec's midpoint-split rule and the source's
volatility is the population standard deviation (here in the form
`sqrt (E[x²] − E[x]²)`); for fewer than 2 points the volatility is 0. -/
theorem c4_direction_and_volatility (l : List ℚ) :
    (2 ≤ l.length →
      determine_trend_direction l = directionSpec l ∧
        calculate_volatility l = popStdDev l)
    ∧ (l.length < 2 → calculate_volatility l = 0) := by
  constructor
  · intro h
    have h2 : ¬l.length < 2 := by omega
    have hn : (l.length : ℚ) ≠ 0 := by
      have h0 : 0 < l.length := by omega
      exact_mod_cast h0.ne'
    constructor
    · unfold determine_trend_direction directionSpec meanQ
      rw [if_neg h2]
      simp only [List.length_take, List.length_drop,
        min_eq_left (Nat.div_le_self l.length 2)]
    · unfold calculate_volatility popStdDev
      rw [if_neg h2]
      simp only []
      congr 1
      have key : (l.map fun r => (r - l.sum / (l.length : ℚ)) ^ 2).sum / (l.length : ℚ) =
          popVariance l := by
        unfold popVariance meanQ
        rw [sum_sq_dev]
        field_simp
        ring
      exact_mod_cast key
  · intro h
    unfold calculate_volatility
    rw [if_pos h]

/-- Witness for C4 on the two-point series `[0, 1]`. -/
theorem c4_direction_and_volatility_witness :
    2 ≤ ([0, 1] : List ℚ).length ∧
      (determine_trend_direction [0, 1] = directionSpec [0, 1] ∧
        calculate_volatility [0, 1] = popStdDev [0, 1]) :=
  ⟨by decide, (c4_direction_and_volatility [0, 1]).1 (by decide)⟩

lemma bucketPoint_spec (periods : List (String × List CaseData)) (k : String) :
    (bucketPoint periods k).map (fun x => (x.1, x.2.1)) = specBucket periods k := by
  unfold bucketPoint specBucket
  simp only []
  by_cases h : (lookupPeriod periods k).length < 3
  · rw [if_pos h, if_neg (by omega)]
    rfl
  · rw [if_neg h, if_pos (by omega), if_pos (by omega)]
    rfl

lemma trendBucketData_spec (periods : List (String × List CaseData)) :
    (trendBucketData periods).map (fun x => (x.1, x.2.1)) =
      specQualifyingBuckets periods := by
  unfold trendBucketData specQualifyingBuckets
  rw [List.map_filterMap]
  congr 1
  funext k
  exact bucketPoint_spec periods k

/-- C7 (amended): `_calculate_trend` returns `None` exactly when no
time bucket has at least 3 cases (3 is hardcoded; the configuration's
`min_cases_required` is not consulted), and otherwise its trend points
are exactly the ≥ 3-case buckets in sorted period order, each carrying
`favorable_ratio` = favorable-labeled cases / total cases. -/
theorem c7_trend_buckets_amended (tribunal theme : String)
    (periods : List (String × List CaseData)) :
    (calculate_trend tribunal theme periods = none ↔
      specQualifyingBuckets periods = [])
    ∧ ∀ t, calculate_trend tribunal theme periods = some t →
        t.trend_points.map (fun p => (p.favorable_ratio, p.total_cases)) =
          specQualifyingBuckets periods := by
  have hspec := trendBucketData_spec periods
  unfold calculate_trend
  by_cases hp : periods.isEmpty
  · rw [if_pos hp]
    have hnil : periods = [] := List.isEmpty_iff.mp hp
    subst hnil
    exact ⟨by simp [← hspec, trendBucketData, sortedKeys, lookupPeriod], fun t ht => by cases ht⟩
  · rw [if_neg hp]
    simp only []
    by_cases he : trendBucketData periods = []
    · rw [he]
      simp only [List.map_nil, List.isEmpty_nil, if_pos rfl]
      exact ⟨by simp [← hspec, he], fun t ht => by cases ht⟩
    · have hne : ¬(((trendBucketData periods).map fun x =>
          ({ favorable_ratio := x.1, total_cases := x.2.1,
             representative_case := x.2.2 } : TrendPoint)).isEmpty = true) := by
        simp [List.isEmpty_iff, he]
      rw [if_neg hne]
      constructor
      · constructor
        · intro hcontra
          cases hcontra
        · intro hspec0
          rw [← hspec] at hspec0
          exact absurd (List.map_eq_nil_iff.mp hspec0) he
      · intro t ht
        cases Option.some.inj ht
        rw [← hspec, List.map_map]
        rfl

/-- Counterexample to C7 as stated: with the default configuration
(`min_cases_required = 5`) a 4-case bucket is below the configured
minimum, yet `_calculate_trend` still produces a `TrendPoint` for it —
the code compares against the hardcoded 3, not the configuration. -/
theorem c7_min_cases_counterexample :
    exCfg.min_cases_required = 5 ∧
      exBucket4.length < exCfg.min_cases_required ∧
      (calculate_trend "TRE-SP" "inelegibilidade" exPeriods4).map
        (fun t => t.trend_points.length) = some 1 := by
  refine ⟨rfl, by decide, ?_⟩
  have hbd : trendBucketData exPeriods4 =
      [((4 : ℚ)/4, 4, some (exCaseDataFav 1))] := by
    simp [trendBucketData, sortedKeys, bucketPoint, lookupPeriod, exPeriods4,
      exBucket4, exCaseDataFav]
  unfold calculate_trend
  rw [if_neg (by decide)]
  simp only [hbd]
  simp

/-- Witness for the amended C7 on a 3-case bucket. -/
theorem c7_trend_buckets_amended_witness :
    ∃ t, calculate_trend "TRE-SP" "inelegibilidade"
        [("2024-S1", [exCaseDataFav 1, exCaseDataFav 2, exCaseDataFav 3])] = some t ∧
      t.trend_points.map (fun p => (p.favorable_ratio, p.total_cases)) =
        specQualifyingBuckets
          [("2024-S1", [exCaseDataFav 1, exCaseDataFav 2, exCaseDataFav 3])] := by
  have hbd : trendBucketData
      [("2024-S1", [exCaseDataFav 1, exCaseDataFav 2, exCaseDataFav 3])] =
      [((3 : ℚ)/3, 3, some (exCaseDataFav 1))] := by
    simp [trendBucketData, sortedKeys, bucketPoint, lookupPeriod, exCaseDataFav]
  have hrun : ∃ t, calculate_trend "TRE-SP" "inelegibilidade"
      [("2024-S1", [exCaseDataFav 1, exCaseDataFav 2, exCaseDataFav 3])] = some t := by
    unfold calculate_trend
    rw [if_neg (by decide)]
    simp only [hbd]
    simp
  obtain ⟨t, ht⟩ := hrun
  exact ⟨t, ht,
    (c7_trend_buckets_amended "TRE-SP" "inelegibilidade"
      [("2024-S1", [exCaseDataFav 1, exCaseDataFav 2, exCaseDataFav 3])]).2 t ht⟩

lemma changeEmit_eq_none_of_short (cfg : MonitoringConfig)
    (freshIds : TrendAnalysis → String) (orc : TrendAnalysis → ChangeAIOutcome)
    (theme : String) (t : TrendAnalysis) (h1 : t.trend_points.length < 2) :
    changeEmit cfg freshIds orc theme t = none := by
  unfold changeEmit
  rw [if_pos h1]

lemma changeEmit_eq_none_of_small (cfg : MonitoringConfig)
    (freshIds : TrendAnalysis → String) (orc : TrendAnalysis → ChangeAIOutcome)
    (theme : String) (t : TrendAnalysis) (h1 : ¬t.trend_points.length < 2)
    (h2 : ¬changeMag t ≥ cfg.change_threshold) :
    changeEmit cfg freshIds orc theme t = none := by
  unfold changeEmit
  rw [if_neg h1]
  simp only []
  rw [if_neg h2]

lemma changeEmit_eq_some (cfg : MonitoringConfig)
    (freshIds : TrendAnalysis → String) (orc : TrendAnalysis → ChangeAIOutcome)
    (theme : String) (t : TrendAnalysis) (h1 : ¬t.trend_points.length < 2)
    (h2 : changeMag t ≥ cfg.change_threshold) :
    changeEmit cfg freshIds orc theme t =
      some (analyze_change (freshIds t) (orc t) t (firstPoint t) (lastPoint t) theme) := by
  unfold changeEmit
  rw [if_neg h1]
  simp only []
  rw [if_pos h2]

lemma analyze_change_spec (freshId : String) (outcome : ChangeAIOutcome)
    (trend : TrendAnalysis) (before after : TrendPoint) (theme : String) :
    ((analyze_change freshId outcome trend before after theme).change_type,
      (analyze_change freshId outcome trend before after theme).severity) =
        changeTableSpec before.favorable_ratio after.favorable_ratio trend.volatility
    ∧ (analyze_change freshId outcome trend before after theme).change_magnitude =
        |after.favorable_ratio - before.favorable_ratio| := by
  unfold analyze_change changeTableSpec
  constructor
  · simp only []
  · rfl

/-- C3: `_detect_changes` emits one `ChangeDetection` per trend with at
least 2 points whose first-to-last magnitude reaches the configured
threshold (and none otherwise); every emitted change carries that
magnitude and the change-type/severity assigned by the spec's ordered
decision table on (before, after, volatility); the default threshold is
0.20. -/
theorem c3_detect_changes_table (cfg : MonitoringConfig)
    (freshIds : TrendAnalysis → String) (orc : TrendAnalysis → ChangeAIOutcome)
    (theme : String) (trends : List TrendAnalysis) :
    (detect_changes cfg freshIds orc trends theme).length =
      (trends.filter fun t =>
        decide (2 ≤ t.trend_points.length) &&
          decide (cfg.change_threshold ≤ changeMag t)).length
    ∧ (∀ ch ∈ detect_changes cfg freshIds orc trends theme,
        ∃ t ∈ trends,
          2 ≤ t.trend_points.length ∧ cfg.change_threshold ≤ changeMag t ∧
            ch.change_magnitude = changeMag t ∧
            (ch.change_type, ch.severity) =
              changeTableSpec (firstPoint t).favorable_ratio
                (lastPoint t).favorable_ratio t.volatility)
    ∧ ({ themes := [], tribunals := [] } : MonitoringConfig).change_threshold = 20/100 := by
  refine ⟨?_, ?_, rfl⟩
  · induction trends with
    | nil => rfl
    | cons t ts ih =>
        show (List.filterMap _ (t :: ts)).length = (List.filter _ (t :: ts)).length
        by_cases h1 : t.trend_points.length < 2
        · rw [List.filterMap_cons_none (changeEmit_eq_none_of_short cfg freshIds orc theme t h1),
            List.filter_cons_of_neg (by simp; omega)]
          exact ih
        · by_cases h2 : cfg.change_threshold ≤ changeMag t
          · rw [List.filterMap_cons_some (changeEmit_eq_some cfg freshIds orc theme t h1 h2),
              List.filter_cons_of_pos (by simp [h2]; omega)]
            simpa using ih
          · rw [List.filterMap_cons_none (changeEmit_eq_none_of_small cfg freshIds orc theme t h1 h2),
              List.filter_cons_of_neg (by simp [h2])]
            exact ih
  · intro ch hch
    rw [detect_changes, List.mem_filterMap] at hch
    obtain ⟨t, ht, hf⟩ := hch
    by_cases h1 : t.trend_points.length < 2
    · rw [changeEmit_eq_none_of_short cfg freshIds orc theme t h1] at hf
      cases hf
    · by_cases h2 : changeMag t ≥ cfg.change_threshold
      · rw [changeEmit_eq_some cfg freshIds orc theme t h1 h2] at hf
        cases Option.some.inj hf
        refine ⟨t, ht, by omega, h2, ?_, ?_⟩
        · exact (analyze_change_spec _ _ _ _ _ _).2
        · exact (analyze_change_spec _ _ _ _ _ _).1
      · rw [changeEmit_eq_none_of_small cfg freshIds orc theme t h1 h2] at hf
        cases hf

/-- Witness for C3: the falling two-point trend (0.8 → 0.1) crosses the
default threshold and is classified total-reversal / critical. -/
theorem c3_detect_changes_table_witness :
    exChangeReversal ∈ detect_changes exCfg (fun _ => "change-1")
        (fun _ => ChangeAIOutcome.raised) [exTrendReversal] "inelegibilidade" ∧
      ∃ t ∈ [exTrendReversal],
        2 ≤ t.trend_points.length ∧ exCfg.change_threshold ≤ changeMag t ∧
          exChangeReversal.change_magnitude = changeMag t ∧
          (exChangeReversal.change_type, exChangeReversal.severity) =
            changeTableSpec (firstPoint t).favorable_ratio
              (lastPoint t).favorable_ratio t.volatility := by
  have hmag : changeMag exTrendReversal = 7/10 := by
    simp only [changeMag, firstPoint, lastPoint, exTrendReversal]
    simp
    rw [show ((10 : ℚ)⁻¹ - 4/5) = -(7/10) from by norm_num, abs_neg,
      abs_of_nonneg (by norm_num : (0 : ℚ) ≤ 7/10)]
  have h2 : changeMag exTrendReversal ≥ exCfg.change_threshold := by
    rw [hmag]
    norm_num [exCfg]
  have hdc : detect_changes exCfg (fun _ => "change-1")
      (fun _ => ChangeAIOutcome.raised) [exTrendReversal] "inelegibilidade" =
      [exChangeReversal] := by
    rw [detect_changes,
      List.filterMap_cons_some
        (changeEmit_eq_some exCfg (fun _ => "change-1") (fun _ => ChangeAIOutcome.raised)
          "inelegibilidade" exTrendReversal (by decide) h2)]
    rfl
  constructor
  · rw [hdc]
    exact List.mem_singleton_self _
  · exact (c3_detect_changes_table exCfg (fun _ => "change-1")
      (fun _ => ChangeAIOutcome.raised) "inelegibilidade" [exTrendReversal]).2.1
      exChangeReversal (by rw [hdc]; exact List.mem_singleton_self _)

end DJE
